import Mathlib

/-!
Shallow embedding of the detection core of this repository
(`src/detections/detection.rs`): record/rule data model, per-rule execution,
the aggregation-alert message synthesis, rule-file load accounting, and the
per-severity unique-result summary.  Components that live outside the given
sources (rule internals from `rule.rs`, the severity map from `configs.rs`,
number rendering from `utils.rs`) are modelled from the specification and
marked as such.
-/

/-- JSON values as manipulated by the detection code (`serde_json::Value`);
numbers are restricted to integers, which covers every value the claims
touch. -/
inductive Json where
  | null : Json
  | bool (b : Bool) : Json
  | num (n : Int) : Json
  | str (s : String) : Json
  | arr (xs : List Json) : Json
  | obj (kvs : List (String × Json)) : Json

/-- Indexing `value["key"]` on a `serde_json::Value`: field lookup on objects,
`Null` for a missing key or a non-object. -/
def Json.get (j : Json) (k : String) : Json :=
  match j with
  | .obj kvs =>
      match kvs.find? (fun kv => kv.1 == k) with
      | some kv => kv.2
      | none => .null
  | _ => .null

/-- `Value::as_str`: the string content of a string value, `none` otherwise. -/
def Json.as_str : Json → Option String
  | .str s => some s
  | _ => none

/-- JSON string escaping of one character, as `serde_json` renders string
content (quote and backslash escaped; other characters taken verbatim). -/
def escapeChar (c : Char) : String :=
  if c = '"' then "\\\"" else if c = '\\' then "\\\\" else String.mk [c]

/-- JSON string escaping applied to a whole string. -/
def escapeJson (s : String) : String :=
  String.join (s.toList.map escapeChar)

mutual

/-- Compact JSON rendering, `serde_json::Value::to_string`. -/
def Json.to_string : Json → String
  | .null => "null"
  | .bool b => if b then "true" else "false"
  | .num n => toString n
  | .str s => "\"" ++ escapeJson s ++ "\""
  | .arr xs => "[" ++ Json.items_to_string xs ++ "]"
  | .obj kvs => "\x7b" ++ Json.fields_to_string kvs ++ "\x7d"

/-- Comma-separated rendering of a JSON array's items. -/
def Json.items_to_string : List Json → String
  | [] => ""
  | [x] => Json.to_string x
  | x :: rest => Json.to_string x ++ "," ++ Json.items_to_string rest

/-- Comma-separated rendering of a JSON object's fields. -/
def Json.fields_to_string : List (String × Json) → String
  | [] => ""
  | [kv] => "\"" ++ escapeJson kv.1 ++ "\":" ++ Json.to_string kv.2
  | kv :: rest =>
      "\"" ++ escapeJson kv.1 ++ "\":" ++ Json.to_string kv.2 ++ "," ++
        Json.fields_to_string rest

end

/-- Worker for `splitUnderscore`: scan characters, cutting at the
separator. -/
def splitSepAux (sep : Char) : List Char → List Char → List String
  | [], acc => [String.mk acc.reverse]
  | c :: rest, acc =>
      if c = sep then String.mk acc.reverse :: splitSepAux sep rest []
      else splitSepAux sep rest (c :: acc)

/-- Rust `str::split("_")` for the one-character pattern used by
`create_count_output`: split at every underscore; never returns an empty
list, and the empty string splits to `[""]`. -/
def splitUnderscore (s : String) : List String :=
  splitSepAux '_' s.toList []

/-- Rust `str::replace("\"", "")` with the empty replacement, as used on the
rendered Computer value: removes every double-quote character. -/
def replaceQuote (s : String) : String :=
  String.mk (s.toList.filter (fun c => c ≠ '"'))

/-- Rust `str::to_uppercase` on the ASCII level strings the summary
classifies (per-character uppercasing). -/
def toUppercase (s : String) : String :=
  String.mk (s.toList.map Char.toUpper)

/-- One event record: source file path, the record as a JSON document, and
its precomputed flattened string form (`EvtxRecordInfo`). -/
structure EvtxRecordInfo where
  evtx_filepath : String
  record : Json
  data_string : String

/-- A loaded detection rule (`RuleNode` from `rule.rs`, which is outside the
given sources).  `rulepath` and `yaml` are the fields `detection.rs` reads
directly; the remaining fields model, from the spec, the rule behaviour that
`detection.rs` invokes through methods:
`select` is the selection-condition evaluation (a pure boolean function of
the record, per the spec's RecordMatcher contract), `agg_condition` is the
presence of an aggregation clause (`has_agg_condition`), `countdata_exists`
is whether the rule recorded at least one alert, direct or aggregated
(`check_exist_countdata`), and `init_result` is the outcome of structural
validation (`rule.init()`), error messages on failure. -/
structure RuleNode where
  rulepath : String
  yaml : Json
  agg_condition : Bool
  select : EvtxRecordInfo → Bool
  countdata_exists : Bool
  init_result : Except (List String) Unit

/-- Modelled from the spec: `RuleNode::has_agg_condition` (in `rule.rs`,
missing from the sources) — whether the rule carries an aggregation
clause. -/
def RuleNode.has_agg_condition (r : RuleNode) : Bool :=
  r.agg_condition

/-- Modelled from the spec: `RuleNode::check_exist_countdata` (in `rule.rs`,
missing from the sources) — per the spec's ResultSummary contract, true
exactly when the rule produced at least one alert, direct or aggregated. -/
def RuleNode.check_exist_countdata (r : RuleNode) : Bool :=
  r.countdata_exists

/-- Whether `rule.init()` succeeded. -/
def RuleNode.init_ok (r : RuleNode) : Bool :=
  match r.init_result with
  | .ok _ => true
  | .error _ => false

/-- Modelled from the spec: `get_serde_number_to_string` (in `utils.rs`,
missing from the sources) — renders the EventID value to a string, yielding
`none` when the field is absent so that the alert falls back to the `"-"`
sentinel. -/
def get_serde_number_to_string : Json → Option String
  | .num n => some (toString n)
  | .str s => some s
  | _ => none

/-- One aggregation decision (`AggResult` from `rule.rs`): source file path,
grouping key, window start (opaque here), and the count-condition operator
label. -/
structure AggResult where
  filepath : String
  key : String
  condition_op_num : String

/-- Modelled from the spec: the count-condition operator label stored in an
`AggResult` (built in `rule.rs`, missing from the sources) — the comparison
operator and the integer threshold of the aggregation clause, rendered as
`"<operator> <threshold>"` per the spec's aggregated-message template. -/
def condition_op_label (op : String) (threshold : Nat) : String :=
  op ++ " " ++ toString threshold

/-- One normalized alert as handed to the message sink (`MESSAGES.insert` in
`print.rs`): source path, rule identifier, severity, host, event identifier,
title, message body.  The timestamp slot the sink also receives is outside
the embedding. -/
structure Alert where
  filepath : String
  rulepath : String
  level : String
  computer : String
  eventid : String
  title : String
  output : String

/-- `Detection::insert_message`: the alert built for a direct match of a rule
on one record. -/
def insert_message (rule : RuleNode) (record_info : EvtxRecordInfo) : Alert :=
  { filepath := record_info.evtx_filepath
    rulepath := rule.rulepath
    level := ((rule.yaml.get "level").as_str).getD "-"
    computer :=
      replaceQuote (Json.to_string
        (((record_info.record.get "Event").get "System").get "Computer"))
    eventid :=
      (get_serde_number_to_string
        (((record_info.record.get "Event").get "System").get "EventID")).getD "-"
    title := ((rule.yaml.get "title").as_str).getD ""
    output := ((rule.yaml.get "output").as_str).getD "" }

/-- `Detection::create_count_output`: the message body synthesized for an
aggregated alert from the grouping key, operator label and timeframe. -/
def create_count_output (rule : RuleNode) (agg_result : AggResult) : String :=
  let key := splitUnderscore agg_result.key
  let ret := "count("
  let ret := if key.length ≥ 1 then ret ++ key.getD 0 "" else ret
  let ret := ret ++ ") "
  let ret := if key.length ≥ 2 then ret ++ "by " ++ key.getD 1 "" else ret
  ret ++ (agg_result.condition_op_num ++ " in "
    ++ ((rule.yaml.get "timeframe").as_str).getD "" ++ ".")

/-- `Detection::insert_agg_message`: the alert built for one aggregation
result. -/
def insert_agg_message (rule : RuleNode) (agg_result : AggResult) : Alert :=
  { filepath := agg_result.filepath
    rulepath := rule.rulepath
    level := ((rule.yaml.get "level").as_str).getD ""
    computer := "-"
    eventid := "-"
    title := ((rule.yaml.get "title").as_str).getD ""
    output := create_count_output rule agg_result }

/-- The record loop of `Detection::execute_rule`: evaluate the rule's
selection on each record in order; on a match, when the rule has no
aggregation clause, insert an alert immediately (an aggregating rule instead
registers the match in its own count state, which stays internal to the
rule).  Returns the alerts inserted, in insertion order. -/
def execute_rule_loop (rule : RuleNode) (agg_condition : Bool) :
    List EvtxRecordInfo → List Alert
  | [] => []
  | record_info :: rest =>
      if !(rule.select record_info) then execute_rule_loop rule agg_condition rest
      else if !agg_condition then
        insert_message rule record_info :: execute_rule_loop rule agg_condition rest
      else execute_rule_loop rule agg_condition rest

/-- `Detection::execute_rule`: one rule's unit of execution over the whole
record batch.  It returns the rule it was given (the source also accumulates
the unit's wall-clock duration on the rule, which is outside the embedding)
together with the alerts it inserted into the sink. -/
def execute_rule (rule : RuleNode) (records : List EvtxRecordInfo) :
    RuleNode × List Alert :=
  (rule, execute_rule_loop rule rule.has_agg_condition records)

/-- The join barrier's view of task completion in `Detection::execute_rules`:
`sched` is the order in which the spawned per-rule tasks complete; after the
tasks listed in `sched` have run, `finish_map … j` is the value task `j`'s
handle resolves to (`none` when task `j` has not completed). -/
def finish_map (rules : List RuleNode) (records : List EvtxRecordInfo) :
    List Nat → Nat → Option RuleNode
  | [], _ => none
  | i :: rest, j =>
      if j = i then (rules[j]?).map (fun r => (execute_rule r records).1)
      else finish_map rules records rest j

/-- `Detection::execute_rules`: spawn one task per rule in input order, then
await the handles in that same input order and push each awaited rule onto
the result.  `sched` models the completion order of the concurrent tasks;
the awaited value of handle `j` is read from `finish_map`. -/
def execute_rules (rules : List RuleNode) (records : List EvtxRecordInfo)
    (sched : List Nat) : List RuleNode :=
  (List.range rules.length).filterMap (finish_map rules records sched)

/-- One line of user-visible output, tagged by the stream and macro the
source uses (`AlertMessage::alert` to stderr, `AlertMessage::warn` to stdout,
plain `println!`). -/
inductive OutLine where
  | errLine (s : String) : OutLine
  | warnLine (s : String) : OutLine
  | infoLine (s : String) : OutLine
deriving DecidableEq

/-- Modelled from the spec: the state of the rule-file loader after
`ParseYaml::read_dir` (in `yaml.rs`, missing from the sources) — the rules
materialized from the rule files (`files`, already through
`rule::create_rule`), the count of rules that failed YAML-level loading
(`errorrule_count`), the count of rules ignored by filtering
(`ignorerule_count`), and the per-severity loaded-rule counter
(`rulecounter`, an association list since the source's `HashMap` iteration
order is unspecified). -/
structure ParseYamlModel where
  files : List RuleNode
  errorrule_count : Nat
  ignorerule_count : Nat
  rulecounter : List (String × Nat)

/-- `Detection::print_rule_load_info`: one line per severity label from the
rule counter, then the ignored count, the parse-error count, the grand total
(errors + ignored + loaded), and a blank line. -/
def print_rule_load_info (rc : List (String × Nat))
    (parseerror_count ignore_count : Nat) : List OutLine :=
  (rc.map (fun kv => OutLine.infoLine (kv.1 ++ " rules: " ++ toString kv.2)))
    ++ [OutLine.infoLine ("Ignored rules: " ++ toString ignore_count),
        OutLine.infoLine ("Rule parsing errors: " ++ toString parseerror_count),
        OutLine.infoLine ("Total detection rules: "
          ++ toString (parseerror_count + ignore_count + (rc.map Prod.snd).sum)),
        OutLine.infoLine ""]

/-- The warning block `parse_rule_files` prints for one rule whose
`init()` failed: a header naming the rule file, one line per error message,
and a blank separator line. -/
def rule_warn_lines (rule : RuleNode) (err_msgs : List String) : List OutLine :=
  OutLine.warnLine ("Failed to parse rule file. (FilePath : " ++ rule.rulepath ++ ")")
    :: err_msgs.map OutLine.warnLine ++ [OutLine.infoLine ""]

/-- The `filter_map(return_if_success)` pass of
`Detection::parse_rule_files`: walk the materialized rules in order, keep
those whose `init()` succeeded, print a warning block and bump the
parse-error count for each failure.  Returns the printed lines, the final
parse-error count, and the kept rules in their original order. -/
def parse_rules_loop : List RuleNode → Nat → List OutLine × Nat × List RuleNode
  | [], cnt => ([], cnt, [])
  | rule :: rest, cnt =>
      match rule.init_result with
      | .ok _ =>
          let r := parse_rules_loop rest cnt
          (r.1, r.2.1, rule :: r.2.2)
      | .error err_msgs =>
          let r := parse_rules_loop rest (cnt + 1)
          (rule_warn_lines rule err_msgs ++ r.1, r.2.1, r.2.2)

/-- `Detection::parse_rule_files`: on a directory-read failure, print the
error to stderr and return the empty rule set; otherwise run the
init-filtering pass and print the load summary, returning the kept rules.
The returned list of lines is everything printed, in order. -/
def parse_rule_files (result_readdir : Except String ParseYamlModel) :
    List OutLine × List RuleNode :=
  match result_readdir with
  | .error e => ([OutLine.errLine e], [])
  | .ok rulefile_loader =>
      let r := parse_rules_loop rulefile_loader.files rulefile_loader.errorrule_count
      (r.1 ++ print_rule_load_info rulefile_loader.rulecounter r.2.1
          rulefile_loader.ignorerule_count,
        r.2.2)

/-- Modelled from the spec: the severity map `configs::LEVELMAP` (in
`configs.rs`, missing from the sources) — uppercase severity names to the
index of their count slot, unknown names defaulting to 0; the index order
(Undefined, Informational, Low, Medium, High, Critical) is fixed by the
comment and the label list in `print_unique_results`. -/
def levelmap_get (s : String) : Nat :=
  if s = "INFORMATIONAL" then 1
  else if s = "LOW" then 2
  else if s = "MEDIUM" then 3
  else if s = "HIGH" then 4
  else if s = "CRITICAL" then 5
  else 0

/-- The severity labels of `print_unique_results`, in print order. -/
def levellabel : List String :=
  ["Critical", "High", "Medium", "Low", "Informational", "Undefined"]

/-- The count-slot index `print_unique_results` computes for a rule: its
`level` string (empty when absent or not a string), uppercased, looked up in
the severity map with default 0. -/
def rule_level_suffix (rule : RuleNode) : Nat :=
  levelmap_get (toUppercase (((rule.yaml.get "level").as_str).getD ""))

/-- The counting loop of `print_unique_results`: for each rule that recorded
at least one alert, increment the count slot of its severity. -/
def levelcounts_loop : List RuleNode → List Nat → List Nat
  | [], counts => counts
  | rule :: rest, counts =>
      if rule.check_exist_countdata then
        let suffix := rule_level_suffix rule
        levelcounts_loop rest (counts.set suffix (counts.getD suffix 0 + 1))
      else levelcounts_loop rest counts

/-- `Detection::print_unique_results`: count alerting rules per severity
slot, reverse the slots, print one labelled line per severity from Critical
down to Undefined, then the total. -/
def print_unique_results (rules : List RuleNode) : List OutLine :=
  let levelcounts := (levelcounts_loop rules [0, 0, 0, 0, 0, 0]).reverse
  (levelcounts.zip levellabel).map
      (fun p => OutLine.infoLine (p.2 ++ " alerts: " ++ toString p.1))
    ++ [OutLine.infoLine ("Unique alerts detected: " ++ toString levelcounts.sum)]

/-- The number of rules that recorded at least one alert and whose level
classifies into count slot `j`. -/
def severity_bucket (rules : List RuleNode) (j : Nat) : Nat :=
  (rules.filter
    (fun r => r.check_exist_countdata && (rule_level_suffix r == j))).length

/-- Whether an uppercased level string is one of the five recognized
severity names. -/
def recognized_level (s : String) : Bool :=
  s == "CRITICAL" || s == "HIGH" || s == "MEDIUM" || s == "LOW"
    || s == "INFORMATIONAL"

/-- Sample aggregating rule for the aggregated-message scenario: timeframe
`"5m"`, level `"high"`. -/
def aggScenarioRule : RuleNode :=
  { rulepath := "rules/agg.yml"
    yaml := Json.obj [("timeframe", Json.str "5m"), ("level", Json.str "high")]
    agg_condition := true
    select := fun _ => true
    countdata_exists := true
    init_result := Except.ok () }

/-- Sample aggregation result whose grouping key encodes primary field
`Image` and secondary field `User`, with operator `>=` and threshold 5. -/
def aggScenarioResult : AggResult :=
  { filepath := "a.evtx"
    key := "Image_User"
    condition_op_num := condition_op_label ">=" 5 }

/-- Sample aggregation result whose grouping key carries only the primary
field `Image`. -/
def aggScenarioNoBy : AggResult :=
  { filepath := "a.evtx"
    key := "Image"
    condition_op_num := condition_op_label ">=" 5 }

/-- Sample non-aggregating rule. -/
def directRule : RuleNode :=
  { rulepath := "rules/direct.yml"
    yaml := Json.obj [("level", Json.str "high"), ("title", Json.str "T"),
      ("output", Json.str "O")]
    agg_condition := false
    select := fun record_info => record_info.evtx_filepath == "a.evtx"
    countdata_exists := true
    init_result := Except.ok () }

/-- Sample aggregating rule whose yaml has no `level` field. -/
def noLevelRule : RuleNode :=
  { rulepath := "rules/nolevel.yml"
    yaml := Json.obj [("title", Json.str "T")]
    agg_condition := true
    select := fun _ => true
    countdata_exists := true
    init_result := Except.ok () }

/-- Sample record whose `Event.System` object has an `EventID` but no
`Computer` field. -/
def noComputerRecord : EvtxRecordInfo :=
  { evtx_filepath := "b.evtx"
    record := Json.obj [("Event",
      Json.obj [("System", Json.obj [("EventID", Json.num 4624)])])]
    data_string := "" }

/-- Placeholder rule used only as the `getD` default in proofs about the
scheduler (never dispatched). -/
def defaultRule : RuleNode :=
  { rulepath := ""
    yaml := Json.null
    agg_condition := false
    select := fun _ => false
    countdata_exists := false
    init_result := Except.ok () }

/-- Sample rule list for the scheduler scenario. -/
def rulesSample : List RuleNode :=
  [directRule, aggScenarioRule, noLevelRule]

/-- Sample record matched by `directRule` (source path `a.evtx`). -/
def matchingRecord : EvtxRecordInfo :=
  { evtx_filepath := "a.evtx"
    record := Json.obj [("Event", Json.obj [("System",
      Json.obj [("Computer", Json.str "HOST1"), ("EventID", Json.num 1)])])]
    data_string := "" }

/-- Sample record not matched by `directRule` (source path `c.evtx`). -/
def otherRecord : EvtxRecordInfo :=
  { evtx_filepath := "c.evtx"
    record := Json.obj [("Event", Json.obj [("System",
      Json.obj [("Computer", Json.str "HOST2"), ("EventID", Json.num 2)])])]
    data_string := "" }

/-- Claim C1 fails on the code: for the grouping key `Image_User`, operator
`>=`, threshold 5, timeframe `5m`, the synthesized message is not the
claimed `"count(Image) by User >= 5 in 5m."` — the code writes no space
between the secondary field and the operator label. -/
theorem create_count_output_by_spacing_cex :
    create_count_output aggScenarioRule aggScenarioResult
      ≠ "count(Image) by User >= 5 in 5m." := by decide

/-- Claim C1 (amended): for an aggregation result whose grouping key encodes
primary field `Image` and secondary field `User`, with operator `>=`,
threshold 5 and timeframe `5m`, the synthesized message equals
`"count(Image) by User>= 5 in 5m."` (no space after the secondary grouping
field). -/
theorem create_count_output_by_message :
    create_count_output aggScenarioRule aggScenarioResult
      = "count(Image) by User>= 5 in 5m." := by decide

/-- Claim C8: for every aggregation result whose grouping key carries no
secondary grouping field (the underscore split of the key is the key alone),
the synthesized message is
`"count(<primary-field>) <operator> <threshold> in <timeframe>."`, with no
`by` clause text. -/
theorem create_count_output_no_by (rule : RuleNode) (agg_result : AggResult)
    (h : splitUnderscore agg_result.key = [agg_result.key]) :
    create_count_output rule agg_result
      = "count(" ++ agg_result.key ++ ") " ++ agg_result.condition_op_num
        ++ " in " ++ ((rule.yaml.get "timeframe").as_str).getD "" ++ "." := by
  unfold create_count_output
  rw [h]
  simp [String.append_assoc]

/-- Witness for C8 at the concrete key `Image`, operator `>=`, threshold 5,
timeframe `5m`. -/
theorem create_count_output_no_by_witness :
    splitUnderscore "Image" = ["Image"]
    ∧ create_count_output aggScenarioRule aggScenarioNoBy
        = "count(" ++ "Image" ++ ") " ++ aggScenarioNoBy.condition_op_num
          ++ " in " ++ ((aggScenarioRule.yaml.get "timeframe").as_str).getD "" ++ "."
    ∧ create_count_output aggScenarioRule aggScenarioNoBy
        = "count(Image) >= 5 in 5m." :=
  ⟨by decide,
   create_count_output_no_by aggScenarioRule aggScenarioNoBy (by decide),
   by decide⟩

/-- Claim C10: a direct-match alert's host is the JSON rendering of the
record's `Event.System.Computer` value with every double-quote removed; when
the `Computer` field is absent (the lookup yields JSON null) the host is the
literal string `"null"`, not the `"-"` sentinel. -/
theorem insert_message_host (rule : RuleNode) (record_info : EvtxRecordInfo)
    (h : ((record_info.record.get "Event").get "System").get "Computer"
      = Json.null) :
    (insert_message rule record_info).computer
      = replaceQuote (Json.to_string
          (((record_info.record.get "Event").get "System").get "Computer"))
    ∧ (insert_message rule record_info).computer = "null"
    ∧ (insert_message rule record_info).computer ≠ "-" := by
  have hc : (insert_message rule record_info).computer
      = replaceQuote (Json.to_string
          (((record_info.record.get "Event").get "System").get "Computer")) := rfl
  rw [h] at hc
  refine ⟨rfl, ?_, ?_⟩
  · rw [hc]; decide
  · rw [hc]; decide

/-- Witness for C10 at a concrete record whose `Event.System` object lacks a
`Computer` field. -/
theorem insert_message_host_witness :
    ((noComputerRecord.record.get "Event").get "System").get "Computer"
      = Json.null
    ∧ ((insert_message directRule noComputerRecord).computer
        = replaceQuote (Json.to_string
            (((noComputerRecord.record.get "Event").get "System").get "Computer"))
      ∧ (insert_message directRule noComputerRecord).computer = "null"
      ∧ (insert_message directRule noComputerRecord).computer ≠ "-") :=
  ⟨rfl, insert_message_host directRule noComputerRecord rfl⟩

/-- Claim C2 fails on the code: the aggregated alert inserted for a rule
whose yaml has no `level` field carries the empty string as its severity
(`insert_agg_message` defaults the missing level to `""`, unlike
`insert_message`, which defaults it to `"-"`). -/
theorem agg_alert_empty_severity_cex :
    (insert_agg_message noLevelRule aggScenarioResult).rulepath
        = "rules/nolevel.yml"
    ∧ (insert_agg_message noLevelRule aggScenarioResult).level = "" :=
  ⟨rfl, rfl⟩

/-- Claim C2 (amended): every emitted alert's rule identifier is the rule's
file path, hence non-empty whenever that path is non-empty; a direct-match
alert's severity is the rule's level string defaulted to `"-"` (so it is
non-empty when the level is absent or not a string), while an aggregated
alert's severity is the rule's level string defaulted to the empty string,
and is therefore empty for a rule whose level is absent or not a string. -/
theorem alert_identifier_and_severity (rule : RuleNode)
    (record_info : EvtxRecordInfo) (agg_result : AggResult)
    (h : rule.rulepath ≠ "") :
    (insert_message rule record_info).rulepath = rule.rulepath
    ∧ (insert_message rule record_info).rulepath ≠ ""
    ∧ (insert_agg_message rule agg_result).rulepath = rule.rulepath
    ∧ (insert_agg_message rule agg_result).rulepath ≠ ""
    ∧ (insert_message rule record_info).level
        = ((rule.yaml.get "level").as_str).getD "-"
    ∧ ((rule.yaml.get "level").as_str = none →
        (insert_message rule record_info).level = "-")
    ∧ (insert_agg_message rule agg_result).level
        = ((rule.yaml.get "level").as_str).getD "" := by
  refine ⟨rfl, h, rfl, h, rfl, ?_, rfl⟩
  intro hnone
  show ((rule.yaml.get "level").as_str).getD "-" = "-"
  rw [hnone]
  rfl

/-- Witness for the amended C2 at a concrete rule and record. -/
theorem alert_identifier_and_severity_witness :
    directRule.rulepath ≠ ""
    ∧ ((insert_message directRule noComputerRecord).rulepath = directRule.rulepath
      ∧ (insert_message directRule noComputerRecord).rulepath ≠ ""
      ∧ (insert_agg_message directRule aggScenarioResult).rulepath = directRule.rulepath
      ∧ (insert_agg_message directRule aggScenarioResult).rulepath ≠ ""
      ∧ (insert_message directRule noComputerRecord).level
          = ((directRule.yaml.get "level").as_str).getD "-"
      ∧ ((directRule.yaml.get "level").as_str = none →
          (insert_message directRule noComputerRecord).level = "-")
      ∧ (insert_agg_message directRule aggScenarioResult).level
          = ((directRule.yaml.get "level").as_str).getD "") :=
  ⟨by decide,
   alert_identifier_and_severity directRule noComputerRecord aggScenarioResult
     (by decide)⟩

/-- Claim C5: a rule without an aggregation clause emits exactly one alert
per record its selection matches and none for non-matching records, and each
alert's host and event-identifier come from that record's
`Event.System.Computer` and `Event.System.EventID` fields (its source path
likewise). -/
theorem nonagg_one_alert_per_match (rule : RuleNode)
    (records : List EvtxRecordInfo) (h : rule.has_agg_condition = false) :
    (execute_rule rule records).2
      = (records.filter rule.select).map (fun record_info => insert_message rule record_info)
    ∧ ∀ record_info : EvtxRecordInfo,
        (insert_message rule record_info).computer
          = replaceQuote (Json.to_string
              (((record_info.record.get "Event").get "System").get "Computer"))
        ∧ (insert_message rule record_info).eventid
          = (get_serde_number_to_string
              (((record_info.record.get "Event").get "System").get "EventID")).getD "-"
        ∧ (insert_message rule record_info).filepath = record_info.evtx_filepath := by
  constructor
  · show execute_rule_loop rule rule.has_agg_condition records = _
    rw [h]
    induction records with
    | nil => rfl
    | cons record_info rest ih =>
      cases hsel : rule.select record_info with
      | false => simp [execute_rule_loop, hsel, List.filter_cons, ih]
      | true => simp [execute_rule_loop, hsel, List.filter_cons, ih]
  · intro record_info
    exact ⟨rfl, rfl, rfl⟩

/-- Witness for C5: `directRule` over one matching and one non-matching
record emits exactly the alert for the matching record. -/
theorem nonagg_one_alert_per_match_witness :
    directRule.has_agg_condition = false
    ∧ ((execute_rule directRule [matchingRecord, otherRecord]).2
        = (([matchingRecord, otherRecord].filter directRule.select).map
            (fun record_info => insert_message directRule record_info))
      ∧ ∀ record_info : EvtxRecordInfo,
          (insert_message directRule record_info).computer
            = replaceQuote (Json.to_string
                (((record_info.record.get "Event").get "System").get "Computer"))
          ∧ (insert_message directRule record_info).eventid
            = (get_serde_number_to_string
                (((record_info.record.get "Event").get "System").get "EventID")).getD "-"
          ∧ (insert_message directRule record_info).filepath
            = record_info.evtx_filepath) :=
  ⟨rfl, nonagg_one_alert_per_match directRule [matchingRecord, otherRecord] rfl⟩

/-- Helper: the init-filtering pass keeps exactly the rules whose `init()`
succeeded, in order, and adds one to the running parse-error count per
failing rule. -/
theorem parse_rules_loop_spec (files : List RuleNode) (cnt : Nat) :
    (parse_rules_loop files cnt).2.2 = files.filter (fun r => r.init_ok)
    ∧ (parse_rules_loop files cnt).2.1
        = cnt + (files.filter (fun r => !r.init_ok)).length := by
  induction files generalizing cnt with
  | nil => exact ⟨rfl, rfl⟩
  | cons rule rest ih =>
    cases hinit : rule.init_result with
    | ok v =>
        refine ⟨?_, ?_⟩
        · simp [parse_rules_loop, hinit, List.filter_cons, RuleNode.init_ok,
            (ih cnt).1]
        · simp [parse_rules_loop, hinit, List.filter_cons, RuleNode.init_ok,
            (ih cnt).2]
    | error msgs =>
        refine ⟨?_, ?_⟩
        · simp [parse_rules_loop, hinit, List.filter_cons, RuleNode.init_ok,
            (ih (cnt + 1)).1]
        · simp [parse_rules_loop, hinit, List.filter_cons, RuleNode.init_ok,
            (ih (cnt + 1)).2]
          omega

/-- Claim C9: `parse_rule_files` returns exactly the rules whose `init()`
succeeded, in their original order; each failing rule is excluded and bumps
the parse-error tally by exactly one, and a failure aborts nothing — the
remaining rules are still kept. -/
theorem parse_rule_files_keeps_ok (rulefile_loader : ParseYamlModel) :
    (parse_rule_files (Except.ok rulefile_loader)).2
      = rulefile_loader.files.filter (fun r => r.init_ok)
    ∧ (parse_rules_loop rulefile_loader.files rulefile_loader.errorrule_count).2.1
      = rulefile_loader.errorrule_count
        + (rulefile_loader.files.filter (fun r => !r.init_ok)).length :=
  ⟨(parse_rules_loop_spec rulefile_loader.files rulefile_loader.errorrule_count).1,
   (parse_rules_loop_spec rulefile_loader.files rulefile_loader.errorrule_count).2⟩

/-- Claim C3 fails on the code: when the rules directory cannot be read,
`parse_rule_files` prints only the error to stderr and returns the empty
rule set — no load-summary line (no `infoLine` at all) is printed. -/
theorem parse_rule_files_readdir_error_cex :
    parse_rule_files (Except.error "rule directory load error")
      = ([OutLine.errLine "rule directory load error"], [])
    ∧ ((parse_rule_files (Except.error "rule directory load error")).1.all
        (fun l => match l with
          | OutLine.infoLine _ => false
          | _ => true)) = true :=
  ⟨rfl, by decide⟩

/-- Claim C3 (amended): whenever the rules directory is read successfully,
the load summary (per-severity counts, ignored count, error count, grand
total) is printed, after the per-rule warnings and before the rule set is
handed back; when the directory cannot be read, the error alone is printed
and the empty rule set is returned without a summary. -/
theorem parse_rule_files_summary (rulefile_loader : ParseYamlModel) (e : String) :
    (parse_rule_files (Except.ok rulefile_loader)).1
      = (parse_rules_loop rulefile_loader.files rulefile_loader.errorrule_count).1
        ++ print_rule_load_info rulefile_loader.rulecounter
            (parse_rules_loop rulefile_loader.files
              rulefile_loader.errorrule_count).2.1
            rulefile_loader.ignorerule_count
    ∧ OutLine.infoLine ("Total detection rules: "
        ++ toString ((parse_rules_loop rulefile_loader.files
              rulefile_loader.errorrule_count).2.1
            + rulefile_loader.ignorerule_count
            + (rulefile_loader.rulecounter.map Prod.snd).sum))
        ∈ (parse_rule_files (Except.ok rulefile_loader)).1
    ∧ parse_rule_files (Except.error e) = ([OutLine.errLine e], []) := by
  refine ⟨rfl, ?_, rfl⟩
  show _ ∈ (parse_rules_loop _ _).1 ++ print_rule_load_info _ _ _
  refine List.mem_append_right _ ?_
  simp [print_rule_load_info]

/-- Helper: once task `j` appears in the completion order, its handle
resolves to its rule's execution result, whatever else completed and in
whatever order. -/
theorem finish_map_mem (rules : List RuleNode) (records : List EvtxRecordInfo)
    (sched : List Nat) (j : Nat) (hj : j ∈ sched) :
    finish_map rules records sched j
      = (rules[j]?).map (fun r => (execute_rule r records).1) := by
  induction sched with
  | nil => cases hj
  | cons i rest ih =>
    by_cases hij : j = i
    · simp [finish_map, hij]
    · have hrest : j ∈ rest := by
        rcases List.mem_cons.mp hj with h1 | h1
        · exact absurd h1 hij
        · exact h1
      simp [finish_map, hij, ih hrest]

/-- Helper: a `filterMap` whose function is total on the list is a `map`. -/
theorem filterMap_eq_map_of_some {α β : Type} (f : α → Option β) (g : α → β)
    (l : List α) (h : ∀ x ∈ l, f x = some (g x)) :
    l.filterMap f = l.map g := by
  induction l with
  | nil => rfl
  | cons a t ih =>
    rw [List.filterMap_cons, h a (List.mem_cons_self a t), List.map_cons]
    rw [ih (fun x hx => h x (List.mem_cons_of_mem a hx))]

/-- Helper: mapping a function of the `j`-th element over the index range of
a list is mapping it over the list. -/
theorem map_range_getD {α β : Type} (l : List α) (d : α) (u : α → β) :
    (List.range l.length).map (fun j => u (l.getD j d)) = l.map u := by
  induction l with
  | nil => rfl
  | cons a t ih =>
    rw [List.length_cons, List.range_succ_eq_map, List.map_cons, List.map_map]
    rw [List.map_cons]
    refine congrArg₂ _ rfl ?_
    calc (List.range t.length).map ((fun j => u ((a :: t).getD j d)) ∘ Nat.succ)
        = (List.range t.length).map (fun j => u (t.getD j d)) := by
          refine List.map_congr_left ?_
          intro j _
          rfl
      _ = t.map u := ih

/-- Claim C4: after the join barrier, for every completion order that covers
every dispatched task, the rule collection `execute_rules` returns is
exactly the dispatched rules, each as returned by its own unit, in the order
the units were started (the input order) — independent of the completion
order. -/
theorem execute_rules_order (rules : List RuleNode)
    (records : List EvtxRecordInfo) (sched : List Nat)
    (h : ∀ i, i < rules.length → i ∈ sched) :
    execute_rules rules records sched
      = rules.map (fun r => (execute_rule r records).1)
    ∧ execute_rules rules records sched = rules := by
  have hmain : execute_rules rules records sched
      = rules.map (fun r => (execute_rule r records).1) := by
    unfold execute_rules
    rw [filterMap_eq_map_of_some (finish_map rules records sched)
      (fun j => (execute_rule (rules.getD j defaultRule) records).1)
      (List.range rules.length) ?_]
    · exact map_range_getD rules defaultRule (fun r => (execute_rule r records).1)
    · intro j hjr
      have hjlen : j < rules.length := List.mem_range.mp hjr
      rw [finish_map_mem rules records sched j (h j hjlen)]
      rw [List.getElem?_eq_getElem hjlen]
      simp [List.getD_eq_getElem?_getD, List.getElem?_eq_getElem hjlen]
  refine ⟨hmain, hmain.trans ?_⟩
  exact List.map_id'' (fun _ => rfl) rules

/-- Witness for C4: three rules dispatched, completing in the order
2, 0, 1, are reassembled in input order. -/
theorem execute_rules_order_witness :
    (∀ i, i < rulesSample.length → i ∈ ([2, 0, 1] : List Nat))
    ∧ execute_rules rulesSample [] [2, 0, 1] = rulesSample :=
  ⟨by decide, (execute_rules_order rulesSample [] [2, 0, 1] (by decide)).2⟩

/-- Helper: every severity-map value is a valid slot index. -/
theorem levelmap_get_lt (s : String) : levelmap_get s < 6 := by
  unfold levelmap_get
  split_ifs <;> omega

/-- Helper: `getD` after `set` on a list of naturals. -/
theorem getD_set_nat (l : List Nat) (i j v : Nat) :
    (l.set i v).getD j 0 = if i = j ∧ i < l.length then v else l.getD j 0 := by
  rw [List.getD_eq_getElem?_getD, List.getD_eq_getElem?_getD, List.getElem?_set]
  by_cases hij : i = j
  · subst hij
    by_cases hlen : i < l.length
    · simp [hlen]
    · simp [hlen, List.getElem?_eq_none (Nat.le_of_not_lt hlen)]
  · simp [hij]

/-- Helper: the counting loop preserves the slot-list length. -/
theorem levelcounts_loop_length (rules : List RuleNode) (counts : List Nat) :
    (levelcounts_loop rules counts).length = counts.length := by
  induction rules generalizing counts with
  | nil => rfl
  | cons r rest ih =>
    by_cases hc : r.check_exist_countdata
    · simp [levelcounts_loop, hc, ih, List.length_set]
    · simp [levelcounts_loop, hc, ih]

/-- Helper: after the counting loop, slot `j` holds its initial value plus
the number of alerting rules classified to `j`. -/
theorem levelcounts_loop_getD (rules : List RuleNode) (counts : List Nat)
    (hlen : counts.length = 6) (j : Nat) :
    (levelcounts_loop rules counts).getD j 0
      = counts.getD j 0 + severity_bucket rules j := by
  induction rules generalizing counts with
  | nil => simp [levelcounts_loop, severity_bucket]
  | cons r rest ih =>
    by_cases hc : r.check_exist_countdata
    · have hs : rule_level_suffix r < 6 := levelmap_get_lt _
      have hlen2 : (counts.set (rule_level_suffix r)
          (counts.getD (rule_level_suffix r) 0 + 1)).length = 6 := by
        rw [List.length_set]; exact hlen
      have hloop : levelcounts_loop (r :: rest) counts
          = levelcounts_loop rest (counts.set (rule_level_suffix r)
              (counts.getD (rule_level_suffix r) 0 + 1)) := by
        simp [levelcounts_loop, hc]
      have hbucket : severity_bucket (r :: rest) j
          = severity_bucket rest j
            + (if rule_level_suffix r = j then 1 else 0) := by
        by_cases hsj : rule_level_suffix r = j
        · simp [severity_bucket, List.filter_cons, hc, hsj]
        · simp [severity_bucket, List.filter_cons, hc, hsj]
      rw [hloop, ih _ hlen2, hbucket, getD_set_nat]
      by_cases hsj : rule_level_suffix r = j
      · rw [if_pos ⟨hsj, hlen ▸ hs⟩, if_pos hsj, hsj]
        omega
      · rw [if_neg (fun hand => hsj hand.1), if_neg hsj]
        omega
    · have hloop : levelcounts_loop (r :: rest) counts
          = levelcounts_loop rest counts := by
        simp [levelcounts_loop, hc]
      have hbucket : severity_bucket (r :: rest) j = severity_bucket rest j := by
        simp [severity_bucket, List.filter_cons, hc]
      rw [hloop, ih _ hlen, hbucket]

/-- Helper: a list of six naturals is the list of its six entries. -/
theorem list_length_six_eq (l : List Nat) (h : l.length = 6) :
    l = [l.getD 0 0, l.getD 1 0, l.getD 2 0,
         l.getD 3 0, l.getD 4 0, l.getD 5 0] := by
  match l, h with
  | [a, b, c, d, e, f], _ => rfl

/-- Helper: the slot list computed by `print_unique_results` is exactly the
per-slot bucket counts. -/
theorem levelcounts_loop_buckets (rules : List RuleNode) :
    levelcounts_loop rules [0, 0, 0, 0, 0, 0]
      = [severity_bucket rules 0, severity_bucket rules 1, severity_bucket rules 2,
         severity_bucket rules 3, severity_bucket rules 4, severity_bucket rules 5] := by
  have hlen : (levelcounts_loop rules [0, 0, 0, 0, 0, 0]).length = 6 :=
    levelcounts_loop_length rules [0, 0, 0, 0, 0, 0]
  rw [list_length_six_eq _ hlen,
    levelcounts_loop_getD rules [0, 0, 0, 0, 0, 0] rfl 0,
    levelcounts_loop_getD rules [0, 0, 0, 0, 0, 0] rfl 1,
    levelcounts_loop_getD rules [0, 0, 0, 0, 0, 0] rfl 2,
    levelcounts_loop_getD rules [0, 0, 0, 0, 0, 0] rfl 3,
    levelcounts_loop_getD rules [0, 0, 0, 0, 0, 0] rfl 4,
    levelcounts_loop_getD rules [0, 0, 0, 0, 0, 0] rfl 5]
  simp

/-- Helper: the full output of `print_unique_results`, one labelled line per
severity from Critical down to Undefined, then the total. -/
theorem print_unique_results_eq (rules : List RuleNode) :
    print_unique_results rules
      = [OutLine.infoLine ("Critical alerts: " ++ toString (severity_bucket rules 5)),
         OutLine.infoLine ("High alerts: " ++ toString (severity_bucket rules 4)),
         OutLine.infoLine ("Medium alerts: " ++ toString (severity_bucket rules 3)),
         OutLine.infoLine ("Low alerts: " ++ toString (severity_bucket rules 2)),
         OutLine.infoLine ("Informational alerts: "
           ++ toString (severity_bucket rules 1)),
         OutLine.infoLine ("Undefined alerts: " ++ toString (severity_bucket rules 0)),
         OutLine.infoLine ("Unique alerts detected: "
           ++ toString (severity_bucket rules 5 + (severity_bucket rules 4
              + (severity_bucket rules 3 + (severity_bucket rules 2
              + (severity_bucket rules 1 + (severity_bucket rules 0 + 0)))))))] := by
  unfold print_unique_results
  rw [levelcounts_loop_buckets rules]
  rfl

/-- Helper: the six buckets partition the alerting rules — their sizes sum
to the number of rules that recorded at least one alert. -/
theorem severity_buckets_total (rules : List RuleNode) :
    severity_bucket rules 0 + severity_bucket rules 1 + severity_bucket rules 2
      + severity_bucket rules 3 + severity_bucket rules 4 + severity_bucket rules 5
      = (rules.filter (fun r => r.check_exist_countdata)).length := by
  induction rules with
  | nil => rfl
  | cons r rest ih =>
    have hb : ∀ j, severity_bucket (r :: rest) j
        = severity_bucket rest j
          + (if r.check_exist_countdata ∧ rule_level_suffix r = j
             then 1 else 0) := by
      intro j
      by_cases hc : r.check_exist_countdata <;>
        by_cases hsj : rule_level_suffix r = j <;>
          simp [severity_bucket, List.filter_cons, hc, hsj]
    rw [hb 0, hb 1, hb 2, hb 3, hb 4, hb 5, List.filter_cons]
    by_cases hc : r.check_exist_countdata
    · have hs : rule_level_suffix r < 6 := levelmap_get_lt _
      have h6 : rule_level_suffix r = 0 ∨ rule_level_suffix r = 1
          ∨ rule_level_suffix r = 2 ∨ rule_level_suffix r = 3
          ∨ rule_level_suffix r = 4 ∨ rule_level_suffix r = 5 := by omega
      rcases h6 with h | h | h | h | h | h <;> simp [hc, h] <;> omega
    · simp [hc]
      omega

/-- Helper: the severity map sends a string to the High slot exactly when it
is the string `HIGH`. -/
theorem levelmap_get_eq_four (s : String) : levelmap_get s = 4 ↔ s = "HIGH" := by
  unfold levelmap_get
  split_ifs with h1 h2 h3 h4 h5
  · rw [h1]; decide
  · rw [h2]; decide
  · rw [h3]; decide
  · rw [h4]; decide
  · rw [h5]; decide
  · simp [h4]

/-- Helper: the severity map sends a string to the Undefined slot exactly
when it is none of the five recognized severity names. -/
theorem levelmap_get_eq_zero (s : String) :
    levelmap_get s = 0 ↔ recognized_level s = false := by
  unfold levelmap_get recognized_level
  split_ifs with h1 h2 h3 h4 h5
  · rw [h1]; decide
  · rw [h2]; decide
  · rw [h3]; decide
  · rw [h4]; decide
  · rw [h5]; decide
  · simp [h1, h2, h3, h4, h5]

/-- Claim C6: in the result summary, each rule that recorded at least one
alert (direct or aggregated) contributes exactly 1 to exactly one severity
bucket — the slot list equals the per-bucket counts, which partition the
alerting rules — a rule with no recorded alerts contributes 0, and the
printed total equals the sum of the six per-severity counts, i.e. the
number of alerting rules. -/
theorem unique_results_rule_counts (rules : List RuleNode) :
    levelcounts_loop rules [0, 0, 0, 0, 0, 0]
      = [severity_bucket rules 0, severity_bucket rules 1, severity_bucket rules 2,
         severity_bucket rules 3, severity_bucket rules 4, severity_bucket rules 5]
    ∧ severity_bucket rules 0 + severity_bucket rules 1 + severity_bucket rules 2
        + severity_bucket rules 3 + severity_bucket rules 4 + severity_bucket rules 5
      = (rules.filter (fun r => r.check_exist_countdata)).length
    ∧ (print_unique_results rules).getLast?
      = some (OutLine.infoLine ("Unique alerts detected: "
          ++ toString ((rules.filter (fun r => r.check_exist_countdata)).length))) := by
  refine ⟨levelcounts_loop_buckets rules, severity_buckets_total rules, ?_⟩
  rw [print_unique_results_eq rules]
  have htotal : severity_bucket rules 5 + (severity_bucket rules 4
      + (severity_bucket rules 3 + (severity_bucket rules 2
      + (severity_bucket rules 1 + (severity_bucket rules 0 + 0)))))
      = (rules.filter (fun r => r.check_exist_countdata)).length := by
    have h := severity_buckets_total rules
    omega
  rw [htotal]
  rfl

/-- Claim C7: the per-severity lines are printed from Critical down to
Undefined; the High bucket counts exactly the alerting rules whose level
string uppercases to `HIGH` (so `"high"` in any letter case classifies as
High), and the Undefined bucket counts exactly the alerting rules whose
level string is unrecognized — not one of the five severity names — which
includes an absent level. -/
theorem unique_results_severity_classification (rules : List RuleNode) :
    print_unique_results rules
      = [OutLine.infoLine ("Critical alerts: " ++ toString (severity_bucket rules 5)),
         OutLine.infoLine ("High alerts: " ++ toString (severity_bucket rules 4)),
         OutLine.infoLine ("Medium alerts: " ++ toString (severity_bucket rules 3)),
         OutLine.infoLine ("Low alerts: " ++ toString (severity_bucket rules 2)),
         OutLine.infoLine ("Informational alerts: "
           ++ toString (severity_bucket rules 1)),
         OutLine.infoLine ("Undefined alerts: " ++ toString (severity_bucket rules 0)),
         OutLine.infoLine ("Unique alerts detected: "
           ++ toString (severity_bucket rules 5 + (severity_bucket rules 4
              + (severity_bucket rules 3 + (severity_bucket rules 2
              + (severity_bucket rules 1 + (severity_bucket rules 0 + 0)))))))]
    ∧ severity_bucket rules 4
      = (rules.filter (fun r => r.check_exist_countdata
          && (toUppercase (((r.yaml.get "level").as_str).getD "") == "HIGH"))).length
    ∧ severity_bucket rules 0
      = (rules.filter (fun r => r.check_exist_countdata
          && !recognized_level
              (toUppercase (((r.yaml.get "level").as_str).getD "")))).length := by
  refine ⟨print_unique_results_eq rules, ?_, ?_⟩
  · unfold severity_bucket
    refine congrArg List.length (List.filter_congr ?_)
    intro r _
    refine congrArg (fun b => r.check_exist_countdata && b) ?_
    have h := levelmap_get_eq_four (toUppercase (((r.yaml.get "level").as_str).getD ""))
    unfold rule_level_suffix
    by_cases hh : toUppercase (((r.yaml.get "level").as_str).getD "") = "HIGH"
    · rw [hh]
      decide
    · have hne : levelmap_get (toUppercase (((r.yaml.get "level").as_str).getD "")) ≠ 4 :=
        fun hc => hh (h.mp hc)
      simp [hh, hne]
  · unfold severity_bucket
    refine congrArg List.length (List.filter_congr ?_)
    intro r _
    refine congrArg (fun b => r.check_exist_countdata && b) ?_
    have h := levelmap_get_eq_zero (toUppercase (((r.yaml.get "level").as_str).getD ""))
    unfold rule_level_suffix
    by_cases hz : levelmap_get (toUppercase (((r.yaml.get "level").as_str).getD "")) = 0
    · simp [hz, h.mp hz]
    · have hrec : recognized_level
          (toUppercase (((r.yaml.get "level").as_str).getD "")) = true := by
        rcases Bool.eq_false_or_eq_true (recognized_level
          (toUppercase (((r.yaml.get "level").as_str).getD ""))) with ht | hf
        · exact ht
        · exact absurd (h.mpr hf) hz
      simp [hz, hrec]
